import Mathlib

/-!
Verification of the checkout CLI path of the atef repository.

The development shallowly embeds `src/atef/bin/check.py` (the functions
`check_config_file`, `log_results`, `default_severity_to_log_level`, `main`)
and the helper `match_in_list_mapping` from
`src/atef/widgets/config/window.py`.

External collaborators are modelled as explicit function parameters: the
happi device-database client (`happi.Client.from_config()` and
`client[dev_name]`), ophyd device instantiation (`search_result.get()`), and
the comparison engine `check_device` / `pv_config_to_device_config` from
`atef/check.py`.  Fallible Python calls (a `KeyError` from the client
lookup, an arbitrary exception from instantiation) become `Option`-valued
functions.  The generator `check_config_file` becomes a function returning
the list of yielded tuples in yield order, together with an explicit trace
of the database interactions (whether a client was constructed, and which
device names were looked up, in order).
-/

namespace Atef

/-- Modelled from the spec: `Severity` from `atef/check.py` (a module not
among the examined sources), the ordered outcome enumeration
success < warning < error < internal_error. -/
inductive Severity where
  | success
  | warning
  | error
  | internal_error
deriving DecidableEq

/-- Numeric rank of a severity, realising the order
success < warning < error < internal_error. -/
def Severity.toNat : Severity → Nat
  | .success => 0
  | .warning => 1
  | .error => 2
  | .internal_error => 3

/-- Python comparison `a <= b` on the ordered `Severity` enum. -/
def Severity.le (a b : Severity) : Bool :=
  a.toNat ≤ b.toNat

/-- Python `severity.name` on the `Severity` enum. -/
def Severity.name : Severity → String
  | .success => "success"
  | .warning => "warning"
  | .error => "error"
  | .internal_error => "internal_error"

/-- Modelled from the spec: a `Result` from `atef/check.py` carries exactly
one severity and one human-readable reason. -/
structure Result where
  severity : Severity
  reason : String
deriving DecidableEq

/-- Opaque payload of one configured comparison (`checks` entries);
its internals are irrelevant to the CLI driver being verified. -/
structure Check where
  tag : String
deriving DecidableEq

/-- Stand-in for an `ophyd.Device`; the CLI uses only its `name`. -/
structure Device where
  name : String
deriving DecidableEq

/-- Stand-in for a happi search result handle (`client[dev_name]`). -/
structure SearchResult where
  token : String
deriving DecidableEq

/-- Modelled from the spec: a `PVConfiguration` has a PV/config name, an
optional description and an ordered sequence of comparisons. -/
structure PVConfiguration where
  name : String
  description : Option String
  checks : List Check
deriving DecidableEq

/-- Modelled from the spec: a `DeviceConfiguration` has an optional
description and an ordered sequence of comparisons; its device name is the
key under which it is stored in `ConfigurationFile.devices`. -/
structure DeviceConfiguration where
  description : Option String
  checks : List Check
deriving DecidableEq

/-- Modelled from the spec: a configuration file holds a sequence of
PV-only configurations (`config.pvs`) and an ordered name-to-configuration
mapping of device configurations (`config.devices`, iterated with
`.items()` in insertion order). -/
structure ConfigurationFile where
  pvs : List PVConfiguration
  devices : List (String × DeviceConfiguration)
deriving DecidableEq

/-- The `AnyConfiguration = Union[PVConfiguration, DeviceConfiguration]`
member of a yielded tuple; a device configuration is tagged with the
mapping key it was stored under. -/
inductive AnyConfiguration where
  | pv (config : PVConfiguration)
  | device (name : String) (config : DeviceConfiguration)
deriving DecidableEq

/-- One tuple yielded by `check_config_file`:
`(dev, config, severity, results)`. -/
abbrev Entry := Device × AnyConfiguration × Severity × List Result

/-- The configuration name identifying a yielded entry: the PV
configuration's name, or the device mapping key. -/
def entryName (e : Entry) : String :=
  match e.2.1 with
  | .pv c => c.name
  | .device n _ => n

/-- The device mapping key of a yielded entry, `none` for PV entries. -/
def entryDeviceName (e : Entry) : Option String :=
  match e.2.1 with
  | .pv _ => none
  | .device n _ => some n

/-- External collaborators of `check_config_file`:
`lookup` is `client[dev_name]` on the happi client (`none` = `KeyError`),
`instantiate` is `search_result.get()` (`none` = any raised exception),
`checkDevice` is `atef.check.check_device`, and `pvConfigToDeviceConfig`
is `atef.check.pv_config_to_device_config`, returning the device class
(as a name-indexed constructor, `dev_cls(name=...)`) and the derived
device configuration. -/
structure Collaborators where
  lookup : String → Option SearchResult
  instantiate : SearchResult → Option Device
  checkDevice : Device → List Check → Severity × List Result
  pvConfigToDeviceConfig : PVConfiguration → (String → Device) × DeviceConfiguration

/-- The observable outcome of fully consuming the `check_config_file`
generator: the yielded tuples in order, whether a happi client was
constructed (`happi.Client.from_config()`), and the device names passed to
`client[dev_name]`, in call order. -/
structure CheckRun where
  entries : List Entry
  clientConstructed : Bool
  lookups : List String
deriving DecidableEq

/-- The Python filter test
`filtered_devices and name not in filtered_devices`:
`None` and the empty list are falsy, so they filter nothing. -/
def filteredOut (filtered_devices : Option (List String)) (name : String) : Bool :=
  match filtered_devices with
  | none => false
  | some l => !l.isEmpty && !decide (name ∈ l)

/-- Whether a device name resolves: `client[dev_name]` succeeds and
`search_result.get()` succeeds. -/
def resolves (co : Collaborators) (n : String) : Bool :=
  match co.lookup n with
  | none => false
  | some sr => (co.instantiate sr).isSome

/-- The first loop of `check_config_file` (`for pv_config in config.pvs`):
skip filtered-out configurations, otherwise convert to a device class,
instantiate it under `pv_config.name or "PVConfig"` (Python `or`: the
empty name falls back), check it, and yield. -/
def processPVs (co : Collaborators) (flt : String → Bool) :
    List PVConfiguration → List Entry
  | [] => []
  | pv :: rest =>
    if flt pv.name then
      processPVs co flt rest
    else
      let pc := co.pvConfigToDeviceConfig pv
      let dev := pc.1 (if pv.name = "" then "PVConfig" else pv.name)
      let cr := co.checkDevice dev pc.2.checks
      (dev, .pv pv, cr.1, cr.2) :: processPVs co flt rest

/-- The second loop of `check_config_file`
(`for dev_name, dev_config in config.devices.items()`): skip filtered-out
names before any lookup; on a lookup `KeyError` or an instantiation
exception, log and skip; otherwise check the device and yield.  The second
component records the names passed to `client[dev_name]`, in order. -/
def processDevices (co : Collaborators) (flt : String → Bool) :
    List (String × DeviceConfiguration) → List Entry × List String
  | [] => ([], [])
  | d :: rest =>
    let r := processDevices co flt rest
    if flt d.1 then
      r
    else
      match co.lookup d.1 with
      | none => (r.1, d.1 :: r.2)
      | some sr =>
        match co.instantiate sr with
        | none => (r.1, d.1 :: r.2)
        | some dev =>
          let cr := co.checkDevice dev d.2.checks
          ((dev, .device d.1 d.2, cr.1, cr.2) :: r.1, d.1 :: r.2)

/-- `check_config_file(config, filtered_devices)` from
`src/atef/bin/check.py`, fully consumed: the PV loop runs first; if
`config.devices` is empty the generator returns before constructing a
happi client; otherwise the client is constructed and the device loop
runs. -/
def check_config_file (co : Collaborators) (config : ConfigurationFile)
    (filtered_devices : Option (List String)) : CheckRun :=
  let flt := filteredOut filtered_devices
  let pvEntries := processPVs co flt config.pvs
  if config.devices.isEmpty then
    { entries := pvEntries, clientConstructed := false, lookups := [] }
  else
    let r := processDevices co flt config.devices
    { entries := pvEntries ++ r.1, clientConstructed := true, lookups := r.2 }

/-- Python `logging.DEBUG`. -/
def logging_DEBUG : Nat := 10

/-- Python `logging.INFO`. -/
def logging_INFO : Nat := 20

/-- Python `logging.WARNING`. -/
def logging_WARNING : Nat := 30

/-- Python `logging.ERROR`. -/
def logging_ERROR : Nat := 40

/-- The module-level dict `default_severity_to_log_level` from
`src/atef/bin/check.py`. -/
def default_severity_to_log_level : Severity → Nat
  | .success => logging_DEBUG
  | .warning => logging_WARNING
  | .error => logging_ERROR
  | .internal_error => logging_ERROR

/-- The expression `"passed" if severity <= Severity.warning else "FAILED"`
from `log_results`. -/
def passed_or_failed (severity : Severity) : String :=
  if Severity.le severity .warning then "passed" else "FAILED"

/-- One `logger` call: the numeric level and the message. -/
structure LogRecord where
  level : Nat
  message : String
deriving DecidableEq

/-- Python `config.description or "no description"`: `None` and the empty
string both fall back. -/
def descriptionOrDefault (description : Option String) : String :=
  match description with
  | none => "no description"
  | some s => if s = "" then "no description" else s

/-- The description of the configuration member of a yielded tuple. -/
def configDescription (config : AnyConfiguration) : Option String :=
  match config with
  | .pv c => c.description
  | .device _ c => c.description

/-- `log_results` from `src/atef/bin/check.py`: emits one `logger.info`
header (first component) and then, for each result whose mapped level the
logger is enabled for, one `logger.log(level, result.reason)` record
(second component).  A falsy `severity_to_log_level` argument falls back
to `default_severity_to_log_level`. -/
def log_results (enabled : Nat → Bool)
    (severity_to_log_level : Option (Severity → Nat))
    (device : Device) (severity : Severity) (config : AnyConfiguration)
    (results : List Result) : LogRecord × List LogRecord :=
  let sevMap := severity_to_log_level.getD default_severity_to_log_level
  let head : LogRecord :=
    { level := logging_INFO
      message := "Device " ++ device.name ++ " ("
        ++ descriptionOrDefault (configDescription config) ++ ") "
        ++ passed_or_failed severity ++ " with severity " ++ severity.name }
  (head,
   results.filterMap fun r =>
     if enabled (sevMap r.severity) then
       some { level := sevMap r.severity, message := r.reason }
     else
       none)

/-- The loop body of `main` from `src/atef/bin/check.py`: for each tuple
yielded by `check_config_file`, call `log_results`; `main` returns nothing
else (in particular it computes no aggregate severity). -/
def main_loop (co : Collaborators) (enabled : Nat → Bool)
    (config : ConfigurationFile) (filtered_devices : Option (List String)) :
    List (LogRecord × List LogRecord) :=
  (check_config_file co config filtered_devices).entries.map fun e =>
    log_results enabled none e.1 e.2.2.1 e.2.1 e.2.2.2

/-- Python `list.index(value)`: the index of the first occurrence scanning
left to right, `none` when absent (`ValueError`). -/
def list_index [DecidableEq α] (value : α) : List α → Option Nat
  | [] => none
  | x :: xs => if x = value then some 0 else (list_index value xs).map (· + 1)

/-- `match_in_list_mapping` from `src/atef/widgets/config/window.py`:
`if value not in list1: return None` then `return list2[list1.index(value)]`.
`Except.error` models an uncaught `IndexError`/`ValueError`;
`Except.ok none` models returning `None`. -/
def match_in_list_mapping [DecidableEq α] (value : α) (list1 : List α)
    (list2 : List β) : Except String (Option β) :=
  if value ∈ list1 then
    match list_index value list1 with
    | none => .error "ValueError"
    | some i =>
      match list2.get? i with
      | none => .error "IndexError"
      | some b => .ok (some b)
  else
    .ok none

/-- The names of the configurations retained by the filter test, in
document order: filtered `config.pvs` names, then filtered
`config.devices` keys. -/
def retainedNames (config : ConfigurationFile)
    (filtered_devices : Option (List String)) : List String :=
  (config.pvs.filter fun pv => !filteredOut filtered_devices pv.name).map
      PVConfiguration.name
    ++ (config.devices.filter fun d => !filteredOut filtered_devices d.1).map
      Prod.fst

/-! ## Concrete fixtures

A concrete collaborator set used to evaluate the embedding at explicit
inputs: the device name "bad" fails the happi lookup, a search result with
token "ugly" fails instantiation, every other name resolves to a device of
the same name, and every check succeeds. -/

def demoCo : Collaborators where
  lookup := fun n => if n = "bad" then none else some ⟨n⟩
  instantiate := fun sr => if sr.token = "ugly" then none else some ⟨sr.token⟩
  checkDevice := fun dev _ => (.success, [⟨.success, "check passed for " ++ dev.name⟩])
  pvConfigToDeviceConfig := fun pv => (fun nm => ⟨nm⟩, ⟨pv.description, pv.checks⟩)

/-- No PVs; two device configurations, keyed "bad" and "good". -/
def cfgBadGood : ConfigurationFile :=
  { pvs := [], devices := [("bad", ⟨none, []⟩), ("good", ⟨none, []⟩)] }

/-- One PV configuration "pv1" and one device configuration "bad". -/
def cfgPvBad : ConfigurationFile :=
  { pvs := [⟨"pv1", none, []⟩], devices := [("bad", ⟨none, []⟩)] }

/-- One PV configuration "Y" and one device configuration "bad". -/
def cfgYBad : ConfigurationFile :=
  { pvs := [⟨"Y", none, []⟩], devices := [("bad", ⟨none, []⟩)] }

/-! ## Helper lemmas -/

theorem filteredOut_none_eq : filteredOut none = fun _ => false :=
  funext fun _ => rfl

theorem filteredOut_some_nil : filteredOut (some []) = filteredOut none :=
  funext fun _ => rfl

theorem filteredOut_some_of_ne_nil (F : List String) (h : F.isEmpty = false) :
    filteredOut (some F) = fun m => !decide (m ∈ F) := by
  funext m
  simp [filteredOut, h]

theorem resolves_true_iff (co : Collaborators) (n : String) :
    resolves co n = true
      ↔ ∃ sr dev, co.lookup n = some sr ∧ co.instantiate sr = some dev := by
  rw [resolves]
  cases hl : co.lookup n with
  | none => simp
  | some sr => simp [Option.isSome_iff_exists]

theorem processPVs_names (co : Collaborators) (flt : String → Bool)
    (pvs : List PVConfiguration) :
    (processPVs co flt pvs).map entryName
      = ((pvs.filter fun pv => !flt pv.name).map PVConfiguration.name) := by
  induction pvs with
  | nil => rfl
  | cons pv rest ih =>
    cases h : flt pv.name <;>
      simp [processPVs, List.filter_cons, h, entryName, ih]

theorem processPVs_deviceName (co : Collaborators) (flt : String → Bool)
    (pvs : List PVConfiguration) :
    ∀ e ∈ processPVs co flt pvs, entryDeviceName e = none := by
  induction pvs with
  | nil => intro e he; simp [processPVs] at he
  | cons pv rest ih =>
    intro e he
    cases h : flt pv.name <;> simp [processPVs, h] at he
    · rcases he with he | he
      · simp [he, entryDeviceName]
      · exact ih e he
    · exact ih e he

theorem processDevices_names (co : Collaborators) (flt : String → Bool)
    (ds : List (String × DeviceConfiguration)) :
    ((processDevices co flt ds).1.map entryName)
      = ((ds.filter fun d => !flt d.1 && resolves co d.1).map Prod.fst) := by
  induction ds with
  | nil => rfl
  | cons d rest ih =>
    cases hf : flt d.1
    · cases hl : co.lookup d.1 with
      | none => simp [processDevices, hf, hl, List.filter_cons, resolves, ih]
      | some sr =>
        cases hi : co.instantiate sr with
        | none =>
          simp [processDevices, hf, hl, hi, List.filter_cons, resolves, ih]
        | some dev =>
          simp [processDevices, hf, hl, hi, List.filter_cons, resolves,
                entryName, ih]
    · simp [processDevices, hf, List.filter_cons, ih]

theorem processDevices_no_unresolved (co : Collaborators) (flt : String → Bool)
    (ds : List (String × DeviceConfiguration)) (n : String)
    (hfail : resolves co n = false) :
    ∀ e ∈ (processDevices co flt ds).1, entryDeviceName e ≠ some n := by
  induction ds with
  | nil => intro e he; simp [processDevices] at he
  | cons d rest ih =>
    intro e he
    cases hf : flt d.1
    · cases hl : co.lookup d.1 with
      | none =>
        simp only [processDevices, hf, Bool.false_eq_true, if_false, hl] at he
        exact ih e he
      | some sr =>
        cases hi : co.instantiate sr with
        | none =>
          simp only [processDevices, hf, Bool.false_eq_true, if_false, hl, hi] at he
          exact ih e he
        | some dev =>
          simp only [processDevices, hf, Bool.false_eq_true, if_false, hl, hi] at he
          rcases List.mem_cons.mp he with he | he
          · intro hc
            rw [he] at hc
            simp [entryDeviceName] at hc
            rw [hc] at hl
            have hres := (resolves_true_iff co n).mpr ⟨sr, dev, hl, hi⟩
            rw [hfail] at hres
            exact absurd hres (by simp)
          · exact ih e he
    · simp only [processDevices, hf, if_true] at he
      exact ih e he

theorem processDevices_complete (co : Collaborators) (flt : String → Bool)
    (ds : List (String × DeviceConfiguration)) :
    ∀ d ∈ ds, flt d.1 = false → resolves co d.1 = true →
      ∃ e ∈ (processDevices co flt ds).1, e.2.1 = AnyConfiguration.device d.1 d.2 := by
  induction ds with
  | nil => intro d hd; simp at hd
  | cons d0 rest ih =>
    intro d hd hflt hres
    rcases List.mem_cons.mp hd with hd | hd
    · subst hd
      obtain ⟨sr, dev, hl, hi⟩ := (resolves_true_iff co d.1).mp hres
      refine ⟨(dev, .device d.1 d.2,
        (co.checkDevice dev d.2.checks).1, (co.checkDevice dev d.2.checks).2),
        ?_, rfl⟩
      simp [processDevices, hflt, hl, hi]
    · obtain ⟨e, he, hcfg⟩ := ih d hd hflt hres
      refine ⟨e, ?_, hcfg⟩
      cases hf : flt d0.1
      · cases hl : co.lookup d0.1 with
        | none => simp [processDevices, hf, hl, he]
        | some sr =>
          cases hi : co.instantiate sr with
          | none => simp [processDevices, hf, hl, hi, he]
          | some dev => simp [processDevices, hf, hl, hi, he]
      · simp [processDevices, hf, he]

theorem processDevices_lookups_unfiltered (co : Collaborators) (flt : String → Bool)
    (ds : List (String × DeviceConfiguration)) :
    ∀ m ∈ (processDevices co flt ds).2, flt m = false := by
  induction ds with
  | nil => intro m hm; simp [processDevices] at hm
  | cons d rest ih =>
    intro m hm
    cases hf : flt d.1
    · cases hl : co.lookup d.1 with
      | none =>
        simp only [processDevices, hf, Bool.false_eq_true, if_false, hl] at hm
        rcases List.mem_cons.mp hm with hm | hm
        · rw [hm]; exact hf
        · exact ih m hm
      | some sr =>
        cases hi : co.instantiate sr with
        | none =>
          simp only [processDevices, hf, Bool.false_eq_true, if_false, hl, hi] at hm
          rcases List.mem_cons.mp hm with hm | hm
          · rw [hm]; exact hf
          · exact ih m hm
        | some dev =>
          simp only [processDevices, hf, Bool.false_eq_true, if_false, hl, hi] at hm
          rcases List.mem_cons.mp hm with hm | hm
          · rw [hm]; exact hf
          · exact ih m hm
    · simp only [processDevices, hf, if_true] at hm
      exact ih m hm

theorem processDevices_lookups_are_keys (co : Collaborators) (flt : String → Bool)
    (ds : List (String × DeviceConfiguration)) :
    ∀ m ∈ (processDevices co flt ds).2, ∃ dc, (m, dc) ∈ ds := by
  induction ds with
  | nil => intro m hm; simp [processDevices] at hm
  | cons d rest ih =>
    intro m hm
    have step : m = d.1 ∨ m ∈ (processDevices co flt rest).2 := by
      cases hf : flt d.1
      · cases hl : co.lookup d.1 with
        | none =>
          simp only [processDevices, hf, Bool.false_eq_true, if_false, hl] at hm
          exact List.mem_cons.mp hm
        | some sr =>
          cases hi : co.instantiate sr with
          | none =>
            simp only [processDevices, hf, Bool.false_eq_true, if_false, hl, hi] at hm
            exact List.mem_cons.mp hm
          | some dev =>
            simp only [processDevices, hf, Bool.false_eq_true, if_false, hl, hi] at hm
            exact List.mem_cons.mp hm
      · simp only [processDevices, hf, if_true] at hm
        exact Or.inr hm
    rcases step with h | h
    · exact ⟨d.2, by rw [h]; exact List.mem_cons_self _ _⟩
    · obtain ⟨dc, hdc⟩ := ih m h
      exact ⟨dc, List.mem_cons_of_mem _ hdc⟩

theorem processPVs_filterRun (co : Collaborators) (F : List String)
    (pvs : List PVConfiguration) :
    processPVs co (fun m => !decide (m ∈ F)) pvs
      = (processPVs co (fun _ => false) pvs).filter
          fun e => decide (entryName e ∈ F) := by
  induction pvs with
  | nil => rfl
  | cons pv rest ih =>
    by_cases hc : pv.name ∈ F
    · simp [processPVs, List.filter_cons, hc, entryName, ih]
    · simp [processPVs, List.filter_cons, hc, entryName, ih]

theorem processDevices_filterRun (co : Collaborators) (F : List String)
    (ds : List (String × DeviceConfiguration)) :
    (processDevices co (fun m => !decide (m ∈ F)) ds).1
      = ((processDevices co (fun _ => false) ds).1).filter
          fun e => decide (entryName e ∈ F) := by
  induction ds with
  | nil => rfl
  | cons d rest ih =>
    by_cases hc : d.1 ∈ F
    · cases hl : co.lookup d.1 with
      | none => simp [processDevices, List.filter_cons, hc, hl, ih]
      | some sr =>
        cases hi : co.instantiate sr with
        | none => simp [processDevices, List.filter_cons, hc, hl, hi, ih]
        | some dev =>
          simp [processDevices, List.filter_cons, hc, hl, hi, entryName, ih]
    · cases hl : co.lookup d.1 with
      | none => simp [processDevices, List.filter_cons, hc, hl, ih]
      | some sr =>
        cases hi : co.instantiate sr with
        | none => simp [processDevices, List.filter_cons, hc, hl, hi, ih]
        | some dev =>
          simp [processDevices, List.filter_cons, hc, hl, hi, entryName, ih]

theorem check_config_file_entries (co : Collaborators) (config : ConfigurationFile)
    (fd : Option (List String)) :
    (check_config_file co config fd).entries
      = processPVs co (filteredOut fd) config.pvs
        ++ (if config.devices.isEmpty then []
            else (processDevices co (filteredOut fd) config.devices).1) := by
  rw [check_config_file]
  cases h : config.devices.isEmpty <;> simp [h]

theorem check_config_file_lookups (co : Collaborators) (config : ConfigurationFile)
    (fd : Option (List String)) :
    (check_config_file co config fd).lookups
      = (if config.devices.isEmpty then []
         else (processDevices co (filteredOut fd) config.devices).2) := by
  rw [check_config_file]
  cases h : config.devices.isEmpty <;> simp [h]

theorem check_config_file_client (co : Collaborators) (config : ConfigurationFile)
    (fd : Option (List String)) :
    (check_config_file co config fd).clientConstructed = !config.devices.isEmpty := by
  rw [check_config_file]
  cases h : config.devices.isEmpty <;> simp [h]

/-! ## Claims -/

/-- C1 (counterexample): with the device configuration "bad" failing the
happi lookup, `check_config_file` yields no entry at all for "bad" (in
particular none with error severity); only the entry for the sibling
"good" appears.  This refutes the claim that a resolution failure still
produces an output entry of error severity for the failing device. -/
theorem C1_counterexample :
    (check_config_file demoCo cfgBadGood none).entries.map entryName = ["good"] ∧
    (check_config_file demoCo cfgBadGood none).entries.map entryDeviceName
      = [some "good"] := by
  decide

/-- C1 (amended): when resolution of a device name fails (the happi lookup
raises a not-found error, or device instantiation raises), the checkout run
produces no output entry for that device — it is logged and skipped — and
the run still yields one entry for every other retained device whose
resolution succeeds. -/
theorem C1_amended_unresolvable_skipped (co : Collaborators)
    (config : ConfigurationFile) (fd : Option (List String)) (n : String)
    (hfail : resolves co n = false) :
    (∀ e ∈ (check_config_file co config fd).entries, entryDeviceName e ≠ some n) ∧
    (∀ d ∈ config.devices, filteredOut fd d.1 = false → resolves co d.1 = true →
      ∃ e ∈ (check_config_file co config fd).entries,
        e.2.1 = AnyConfiguration.device d.1 d.2) := by
  constructor
  · intro e he
    rw [check_config_file_entries] at he
    rcases List.mem_append.mp he with he | he
    · have hpv := processPVs_deviceName co (filteredOut fd) config.pvs e he
      simp [hpv]
    · cases hdev : config.devices.isEmpty
      · rw [hdev] at he
        simp only [Bool.false_eq_true, if_false] at he
        exact processDevices_no_unresolved co (filteredOut fd) config.devices n hfail e he
      · rw [hdev] at he
        simp at he
  · intro d hd hflt hres
    have hne : config.devices.isEmpty = false :=
      List.isEmpty_eq_false.mpr (List.ne_nil_of_mem hd)
    obtain ⟨e, he, hcfg⟩ :=
      processDevices_complete co (filteredOut fd) config.devices d hd hflt hres
    refine ⟨e, ?_, hcfg⟩
    rw [check_config_file_entries, hne]
    simp only [Bool.false_eq_true, if_false]
    exact List.mem_append_right _ he

/-- C1 (witness): the amended theorem applied to the concrete fixture in
which "bad" fails the lookup and "good" resolves. -/
theorem C1_witness :
    resolves demoCo "bad" = false ∧
    ((∀ e ∈ (check_config_file demoCo cfgBadGood none).entries,
        entryDeviceName e ≠ some "bad") ∧
     (∀ d ∈ cfgBadGood.devices,
        filteredOut none d.1 = false → resolves demoCo d.1 = true →
          ∃ e ∈ (check_config_file demoCo cfgBadGood none).entries,
            e.2.1 = AnyConfiguration.device d.1 d.2)) :=
  ⟨by decide, C1_amended_unresolvable_skipped demoCo cfgBadGood none "bad" (by decide)⟩

/-- C2 (counterexample): with one PV configuration "pv1" and one device
configuration "bad" whose lookup fails, the run yields one entry while two
top-level configurations are retained, so the output is not one tuple per
retained configuration. -/
theorem C2_counterexample :
    (check_config_file demoCo cfgPvBad none).entries.map entryName = ["pv1"] ∧
    retainedNames cfgPvBad none = ["pv1", "bad"] ∧
    ((check_config_file demoCo cfgPvBad none).entries.length
      == (retainedNames cfgPvBad none).length) = false := by
  decide

/-- C2 (amended): the checkout run yields exactly one output tuple per
retained PV configuration and per retained device configuration whose
resolution succeeds, in document order: retained entries of `config.pvs`
in sequence order first, then the retained, successfully resolving
entries of `config.devices` in mapping order. -/
theorem C2_amended_one_entry_per_resolved (co : Collaborators)
    (config : ConfigurationFile) (fd : Option (List String)) :
    (check_config_file co config fd).entries.map entryName
      = ((config.pvs.filter fun pv => !filteredOut fd pv.name).map
          PVConfiguration.name)
        ++ ((config.devices.filter fun d =>
              !filteredOut fd d.1 && resolves co d.1).map Prod.fst) := by
  rw [check_config_file_entries, List.map_append, processPVs_names]
  congr 1
  cases h : config.devices.isEmpty
  · simp only [Bool.false_eq_true, if_false]
    exact processDevices_names co (filteredOut fd) config.devices
  · rw [List.isEmpty_iff.mp h]
    simp

/-- C3 (counterexample): the file has the root-level configurations "Y"
(a PV) and "bad" (a device failing resolution); with
`filtered_devices = ["bad"]` the run yields no entries at all — in
particular no entry named "bad" — so the output is not "exactly the
configurations whose name is in the filter". -/
theorem C3_counterexample :
    cfgYBad.pvs.map PVConfiguration.name = ["Y"] ∧
    cfgYBad.devices.map Prod.fst = ["bad"] ∧
    (check_config_file demoCo cfgYBad (some ["bad"])).entries = [] := by
  decide

/-- C3 (amended): for a non-empty filter list F, the filtered run yields
exactly the entries of the unfiltered run whose configuration name lies in
F — configurations outside F are skipped entirely (no entry), and a
configuration named in F appears exactly when it would appear in the
unfiltered run (an unresolvable device in F still yields nothing). -/
theorem C3_amended_filter_restricts (co : Collaborators)
    (config : ConfigurationFile) (F : List String) (hF : F.isEmpty = false) :
    (check_config_file co config (some F)).entries
      = (check_config_file co config none).entries.filter
          fun e => decide (entryName e ∈ F) := by
  rw [check_config_file_entries, check_config_file_entries,
      filteredOut_some_of_ne_nil F hF, filteredOut_none_eq, List.filter_append]
  congr 1
  · exact processPVs_filterRun co F config.pvs
  · cases h : config.devices.isEmpty
    · simp only [Bool.false_eq_true, if_false]
      exact processDevices_filterRun co F config.devices
    · simp

/-- C3 (witness): the amended theorem applied to the fixture with devices
"bad" and "good" and the filter ["good"]. -/
theorem C3_witness :
    (["good"] : List String).isEmpty = false ∧
    (check_config_file demoCo cfgBadGood (some ["good"])).entries
      = (check_config_file demoCo cfgBadGood none).entries.filter
          (fun e => decide (entryName e ∈ (["good"] : List String))) :=
  ⟨rfl, C3_amended_filter_restricts demoCo cfgBadGood ["good"] rfl⟩

/-- C5: with a filter supplied, the happi lookup is never invoked for a
device name that is filtered out: the filter test precedes the
`client[dev_name]` call, so a filtered-out name never appears in the trace
of lookups. -/
theorem C5_no_lookup_when_filtered (co : Collaborators)
    (config : ConfigurationFile) (fd : Option (List String)) (n : String)
    (h : filteredOut fd n = true) :
    n ∉ (check_config_file co config fd).lookups := by
  intro hmem
  rw [check_config_file_lookups] at hmem
  cases hdev : config.devices.isEmpty
  · rw [hdev] at hmem
    simp only [Bool.false_eq_true, if_false] at hmem
    have hflt :=
      processDevices_lookups_unfiltered co (filteredOut fd) config.devices n hmem
    rw [hflt] at h
    simp at h
  · rw [hdev] at hmem
    simp at hmem

/-- C5 (witness): with filter ["good"], the filtered-out device "bad" is
never looked up in the concrete fixture. -/
theorem C5_witness :
    filteredOut (some ["good"]) "bad" = true ∧
    "bad" ∉ (check_config_file demoCo cfgBadGood (some ["good"])).lookups :=
  ⟨by decide,
   C5_no_lookup_when_filtered demoCo cfgBadGood (some ["good"]) "bad" (by decide)⟩

/-- C6: `default_severity_to_log_level` maps success to `logging.DEBUG`,
warning to `logging.WARNING`, and both error and internal_error to
`logging.ERROR`; and for a logger enabled at every level, `log_results`
emits exactly one record per result, carrying the result's reason at the
mapped level. -/
theorem C6_severity_log_level_mapping (device : Device)
    (config : AnyConfiguration) (severity : Severity) (results : List Result) :
    default_severity_to_log_level .success = logging_DEBUG ∧
    default_severity_to_log_level .warning = logging_WARNING ∧
    default_severity_to_log_level .error = logging_ERROR ∧
    default_severity_to_log_level .internal_error = logging_ERROR ∧
    (log_results (fun _ => true) none device severity config results).2
      = results.map fun r =>
          { level := default_severity_to_log_level r.severity
            message := r.reason } := by
  refine ⟨rfl, rfl, rfl, rfl, ?_⟩
  induction results with
  | nil => rfl
  | cons r rest ih =>
    simpa [log_results, List.filterMap_cons] using ih

/-- C7: processing PV configurations never touches the device database:
a happi client is constructed exactly when `config.devices` is non-empty,
every looked-up name is a key of `config.devices`, and a file with no
device configurations performs no lookup at all. -/
theorem C7_pv_configs_no_database (co : Collaborators)
    (config : ConfigurationFile) (fd : Option (List String)) :
    ((check_config_file co config fd).clientConstructed
        = !config.devices.isEmpty) ∧
    (∀ m ∈ (check_config_file co config fd).lookups,
        ∃ dc, (m, dc) ∈ config.devices) ∧
    (config.devices = [] → (check_config_file co config fd).lookups = []) := by
  refine ⟨check_config_file_client co config fd, ?_, ?_⟩
  · intro m hm
    rw [check_config_file_lookups] at hm
    cases hdev : config.devices.isEmpty
    · rw [hdev] at hm
      simp only [Bool.false_eq_true, if_false] at hm
      exact processDevices_lookups_are_keys co (filteredOut fd) config.devices m hm
    · rw [hdev] at hm
      simp at hm
  · intro hnil
    rw [check_config_file_lookups, hnil]
    simp

/-- C8: passing the empty list as `filtered_devices` disables filtering
rather than excluding everything: the run is identical to the run with no
filter, because the Python test requires the sequence to be truthy before
excluding anything. -/
theorem C8_empty_filter_disables (co : Collaborators)
    (config : ConfigurationFile) :
    check_config_file co config (some []) = check_config_file co config none := by
  rw [check_config_file, check_config_file, filteredOut_some_nil]

/-- C9: `log_results` reports "passed" exactly when the severity is at
most warning in the severity order — i.e. success or warning — and
"FAILED" exactly when it is error or internal_error; the header message of
`log_results` carries that word. -/
theorem C9_passed_iff (severity : Severity) :
    (passed_or_failed severity = "passed"
       ↔ Severity.le severity .warning = true) ∧
    (passed_or_failed severity = "passed"
       ↔ (severity = .success ∨ severity = .warning)) ∧
    (passed_or_failed severity = "FAILED"
       ↔ (severity = .error ∨ severity = .internal_error)) ∧
    ((log_results (fun _ => true) none ⟨"dev"⟩ severity
        (.pv ⟨"pv", none, []⟩) []).1.message
      = "Device dev (no description) " ++ passed_or_failed severity
        ++ " with severity " ++ Severity.name severity) := by
  cases severity <;> exact ⟨by decide, by decide, by decide, by decide⟩

theorem list_index_eq_none_iff {α : Type} [DecidableEq α] (value : α)
    (l : List α) :
    list_index value l = none ↔ value ∉ l := by
  induction l with
  | nil => simp [list_index]
  | cons x xs ih =>
    by_cases hx : x = value
    · simp [list_index, hx]
    · have hx' : value ≠ x := fun h => hx h.symm
      simp [list_index, hx, hx', ih, Option.map_eq_none']

theorem list_index_spec {α : Type} [DecidableEq α] (value : α) :
    ∀ (l : List α) (i : Nat), list_index value l = some i →
      value ∉ l.take i ∧ l.get? i = some value ∧ i < l.length := by
  intro l
  induction l with
  | nil => intro i h; simp [list_index] at h
  | cons x xs ih =>
    intro i h
    by_cases hx : x = value
    · rw [list_index, if_pos hx] at h
      injection h with h0
      subst h0
      exact ⟨by simp, by simp [hx], by simp⟩
    · rw [list_index, if_neg hx] at h
      rw [Option.map_eq_some'] at h
      obtain ⟨j, hj, hji⟩ := h
      subst hji
      obtain ⟨h1, h2, h3⟩ := ih j hj
      refine ⟨?_, ?_, ?_⟩
      · simp only [List.take_succ_cons, List.mem_cons, not_or]
        exact ⟨fun h => hx h.symm, h1⟩
      · simpa using h2
      · simpa using h3

/-- C10: under the precondition `len(list2) >= len(list1)`,
`match_in_list_mapping` returns `None` when the value is absent from
`list1` and otherwise `list2[i]` for `i` the index of the first occurrence
of the value in `list1` (nothing before index `i` equals the value); the
index access is in bounds, so the error branches are unreachable. -/
theorem C10_match_in_list_mapping {α β : Type} [DecidableEq α] (value : α)
    (list1 : List α) (list2 : List β)
    (hlen : list1.length ≤ list2.length) :
    match_in_list_mapping value list1 list2
      = Except.ok ((list_index value list1).bind fun i => list2.get? i) ∧
    (match list_index value list1 with
     | none => value ∉ list1
     | some i =>
        value ∉ list1.take i ∧ list1.get? i = some value ∧ i < list1.length) := by
  cases hi : list_index value list1 with
  | none =>
    have hmem : value ∉ list1 := (list_index_eq_none_iff value list1).mp hi
    constructor
    · rw [match_in_list_mapping, if_neg hmem]
      simp
    · exact hmem
  | some i =>
    obtain ⟨h1, h2, h3⟩ := list_index_spec value list1 i hi
    have hmem : value ∈ list1 := List.get?_mem h2
    constructor
    · rw [match_in_list_mapping, if_pos hmem, hi]
      have hlt2 : i < list2.length := lt_of_lt_of_le h3 hlen
      have hg : list2.get? i = some (list2.get ⟨i, hlt2⟩) := List.get?_eq_get hlt2
      show (match list2.get? i with
            | none => Except.error "IndexError"
            | some b => Except.ok (some b)) = Except.ok (list2.get? i)
      rw [hg]
    · exact ⟨h1, h2, h3⟩

/-- C10 (witness): the theorem applied at `value = 2`, `list1 = [1, 2]`,
`list2 = ["a", "b", "c"]`. -/
theorem C10_witness :
    List.length ([1, 2] : List Nat) ≤ List.length (["a", "b", "c"] : List String) ∧
    (match_in_list_mapping 2 ([1, 2] : List Nat) ["a", "b", "c"]
        = Except.ok ((list_index 2 ([1, 2] : List Nat)).bind
            fun i => (["a", "b", "c"] : List String).get? i) ∧
     (match list_index 2 ([1, 2] : List Nat) with
      | none => 2 ∉ ([1, 2] : List Nat)
      | some i =>
          2 ∉ ([1, 2] : List Nat).take i
            ∧ ([1, 2] : List Nat).get? i = some 2
            ∧ i < ([1, 2] : List Nat).length)) :=
  ⟨by decide, C10_match_in_list_mapping 2 [1, 2] ["a", "b", "c"] (by decide)⟩

end Atef
